import Mathlib

/-!
Verification of the thontrangliennhat-api content server.

This file gives a shallow embedding, in Lean 4, of the parts of the
JavaScript source that the specification's testable properties talk about:

* the JSON-file content store loader (`getDatabase` in `src/unnamed/part_003`),
* the product and service create / update / delete handlers
  (`src/unnamed/part_003`, `src/server.js`),
* the static image resolver (`src/image-proxy.js`, the catch-all image
  handler of `src/unnamed/part_001`, and the image-not-found middleware of
  `src/unnamed/part_003`),
* the multer upload filter and stored-filename generator
  (`src/unnamed/part_003`), and
* the hard-coded parent-navigation category endpoint
  (`src/unnamed/part_003`).

JavaScript data is modelled as follows: strings are `String`, numbers that
the handlers treat as integers are `Int` (with `none : Option Int` standing
for `null`/`NaN` where the code can store those), `undefined`-able request
fields are `Option String`, and the filesystem is an explicit predicate
`String → Bool` saying which paths exist.  All definitions are computable
so that every theorem can be checked on concrete inputs.
-/

/-- JavaScript `String.prototype.toLowerCase`, restricted to the ASCII
lowering that `Char.toLower` performs (all filenames and extensions the
handlers compare are ASCII). -/
def jsToLower (s : String) : String :=
  ⟨s.data.map Char.toLower⟩

/-- JavaScript `String.prototype.endsWith suf` / an anchored regex
`suf$`: `suf` is a suffix of `s`. -/
def strEndsWith (suf s : String) : Bool :=
  decide (suf.data <:+ s.data)

/-- `path.join a b` for the normal case of a directory name with no
trailing slash and a relative component: `a ++ "/" ++ b`. -/
def pjoin (a b : String) : String :=
  a ++ "/" ++ b

/-- The characters of `path.basename`: everything after the last `/`. -/
def basenameData (l : List Char) : List Char :=
  (l.reverse.takeWhile (fun c => c ≠ '/')).reverse

/-- Node's `path.basename` (for paths that do not end in a slash, the only
shape the image handlers ever pass to it). -/
def basename (s : String) : String :=
  ⟨basenameData s.data⟩

/-- The characters of `path.extname`: the substring of the basename from
its last dot to the end; empty when the basename has no dot or when the
only dot is its first character (a dotfile has no extension).  Node's
special cases for `".."` never arise for the filenames handled here. -/
def extnameData (l : List Char) : List Char :=
  let b := basenameData l
  let rev := b.reverse
  let pre := rev.takeWhile (fun c => c ≠ '.')
  if pre.length = rev.length then []
  else if pre.length + 1 = rev.length then []
  else '.' :: pre.reverse

/-- Node's `path.extname`. -/
def extname (s : String) : String :=
  ⟨extnameData s.data⟩

/-- `req.path.split('/').pop()` from `src/image-proxy.js`: the last
`/`-separated segment of the request path. -/
def lastSegment (s : String) : String :=
  (s.splitOn "/").getLastD ""

/-- The `getContentType` table of `src/image-proxy.js` lines 55-66:
extension (lower-cased) to content type, defaulting to
`application/octet-stream`. -/
def getContentType (filename : String) : String :=
  let ext := jsToLower (extname filename)
  if ext = ".jpg" then "image/jpeg"
  else if ext = ".jpeg" then "image/jpeg"
  else if ext = ".png" then "image/png"
  else if ext = ".gif" then "image/gif"
  else if ext = ".webp" then "image/webp"
  else if ext = ".ico" then "image/x-icon"
  else "application/octet-stream"

/-- The candidate directories of `getImageSearchPaths` in
`src/image-proxy.js` lines 37-47, with `process.cwd()` abstracted as
`cwd`. -/
def imageSearchDirs (cwd : String) : List String :=
  [pjoin cwd "images",
   pjoin (pjoin cwd "public") "images",
   pjoin cwd "uploads",
   pjoin (pjoin cwd "public") "uploads",
   pjoin (pjoin cwd "images") "uploads",
   pjoin (pjoin (pjoin cwd "public") "images") "uploads",
   pjoin "/tmp" "uploads"]

/-- `getImageSearchPaths` of `src/image-proxy.js`: the candidate file
paths probed for a requested image name. -/
def getImageSearchPaths (cwd imageName : String) : List String :=
  (imageSearchDirs cwd).map (fun d => pjoin d imageName)

/-- The fallback default filenames of `src/image-proxy.js` lines 88-92. -/
def defaultImages : List String :=
  ["default.jpg", "placeholder.jpg", "default-image.jpg"]

/-- Body of an HTTP image response: a file on disk, or the embedded
base64 placeholder buffer. -/
inductive ImageBody where
  | fileAt (path : String)
  | placeholderBuffer
deriving Repr, DecidableEq

/-- An HTTP response of the image handlers: status code, the
`Content-Type` header, and the body. -/
structure ImageResponse where
  status : Nat
  contentType : String
  body : ImageBody
deriving Repr, DecidableEq

/-- The catch-all GET handler of `src/image-proxy.js` lines 50-111.
`fsExists` models `fs.existsSync`.  The handler tries the candidate paths
for the requested name (Found-Primary), then the candidate paths of each
fallback default filename (Found-Fallback), and otherwise sends the
embedded placeholder buffer with content type `image/png`.  `res.sendFile`
keeps the already-set `Content-Type` header. -/
def imageRouterGet (fsExists : String → Bool) (cwd reqPath : String) :
    ImageResponse :=
  let imageName := lastSegment reqPath
  match (getImageSearchPaths cwd imageName).find? fsExists with
  | some p => ⟨200, getContentType p, ImageBody.fileAt p⟩
  | none =>
    match (defaultImages.flatMap (getImageSearchPaths cwd)).find? fsExists with
    | some p => ⟨200, getContentType p, ImageBody.fileAt p⟩
    | none => ⟨200, "image/png", ImageBody.placeholderBuffer⟩

/-- The search paths of the catch-all image handler of
`src/unnamed/part_001` lines 171-176, with `__dirname` abstracted. -/
def workaroundSearchPaths (dirname filename : String) : List String :=
  [pjoin (pjoin dirname "images") filename,
   pjoin (pjoin (pjoin dirname "public") "images") filename,
   pjoin (pjoin dirname "uploads") filename,
   pjoin (pjoin (pjoin dirname "public") "uploads") filename]

/-- The route test of the catch-all handler of `src/unnamed/part_001`
line 168: the regex `\.(jpg|jpeg|png|gif|webp|ico)$`. -/
def catchAllImageExtTest (s : String) : Bool :=
  [".jpg", ".jpeg", ".png", ".gif", ".webp", ".ico"].any
    (fun e => strEndsWith e s)

/-- The catch-all image handler of `src/unnamed/part_001` lines 168-189:
serve the first existing file among four candidate directories, else send
the placeholder buffer as `image/png`.  For a found file, `res.sendFile`
derives the content type from the file extension exactly as the
`getContentType` table does. -/
def imageWorkaroundCatchAll (fsExists : String → Bool)
    (dirname reqPath : String) : ImageResponse :=
  let filename := basename reqPath
  match (workaroundSearchPaths dirname filename).find? fsExists with
  | some p => ⟨200, getContentType p, ImageBody.fileAt p⟩
  | none => ⟨200, "image/png", ImageBody.placeholderBuffer⟩

/-- The content-type computation of the image-not-found middleware of
`src/unnamed/part_003` lines 329-335: default `image/jpeg`, overridden by
suffix checks for `.png`, `.gif`, `.webp`. -/
def part3NotFoundContentType (reqPath : String) : String :=
  let ct1 := "image/jpeg"
  let ct2 := if strEndsWith ".png" reqPath then "image/png" else ct1
  let ct3 := if strEndsWith ".gif" reqPath then "image/gif" else ct2
  if strEndsWith ".webp" reqPath then "image/webp" else ct3

/-- JavaScript `v || d` for an optional string `v`: `undefined` and the
empty string are falsy. -/
def jsOrStr (v : Option String) (d : String) : String :=
  match v with
  | some s => if s = "" then d else s
  | none => d

/-- JavaScript `v || d` where both sides may be `undefined`. -/
def jsOrOpt (v : Option String) (d : Option String) : Option String :=
  match v with
  | some s => if s = "" then d else some s
  | none => d

/-- JavaScript truthiness of an optional string. -/
def jsTruthyStr (v : Option String) : Bool :=
  match v with
  | some s => s ≠ ""
  | none => false

/-- Value of a list of decimal digit characters. -/
def digitsToNat (l : List Char) : Nat :=
  l.foldl (fun a c => a * 10 + (c.toNat - '0'.toNat)) 0

/-- The leading decimal-digit run of a character list, `none` when there
is no leading digit. -/
def leadingDigitsVal (l : List Char) : Option Nat :=
  let ds := l.takeWhile Char.isDigit
  if ds.isEmpty then none else some (digitsToNat ds)

/-- JavaScript `parseInt` (radix 10): skip leading whitespace, optional
sign, then the leading digit run; `none` models `NaN`.  The handlers only
ever pass decimal id and count strings, so the `0x` prefix is not
modelled. -/
def parseIntJS (s : String) : Option Int :=
  let cs := s.data.dropWhile Char.isWhitespace
  match cs with
  | '-' :: r => (leadingDigitsVal r).map (fun n => -(n : Int))
  | '+' :: r => (leadingDigitsVal r).map (fun n => (n : Int))
  | _ => (leadingDigitsVal cs).map (fun n => (n : Int))

/-- JavaScript `parseFloat` on plain decimal literals (optional sign,
integer part, optional fraction); `none` models `NaN`.  Exponent notation
is not modelled — the handlers only pass plain price strings. -/
def parseFloatJS (s : String) : Option Rat :=
  let cs := s.data.dropWhile Char.isWhitespace
  let signed : Int × List Char :=
    match cs with
    | '-' :: r => (-1, r)
    | '+' :: r => (1, r)
    | _ => (1, cs)
  let ip := signed.2.takeWhile Char.isDigit
  match signed.2.dropWhile Char.isDigit with
  | '.' :: r =>
    let fp := r.takeWhile Char.isDigit
    if ip.isEmpty && fp.isEmpty then none
    else some ((signed.1 : Rat) *
      ((digitsToNat ip : Rat) + (digitsToNat fp : Rat) / ((10 : Rat) ^ fp.length)))
  | _ => if ip.isEmpty then none else some ((signed.1 : Rat) * (digitsToNat ip : Rat))

/-- `Math.max(x, xs...)` over a spread list.  `Math.max()` of an empty
spread is `-Infinity`; every call site in the source guards with a
`length > 0` check, so the empty case (given as 0 here) is never
reached. -/
def mathMax : List Int → Int
  | [] => 0
  | x :: xs => xs.foldl max x

/-- JavaScript `\w`: ASCII letters, digits and underscore. -/
def isWordChar (c : Char) : Bool :=
  c.isAlphanum || c = '_'

/-- The lowercase Vietnamese letters of the `a` replacement group in the
product slug chain of `src/unnamed/part_003` lines 981-991. -/
def vietA : List Char :=
  ['á', 'à', 'ả', 'ã', 'ạ', 'ă', 'ắ', 'ằ', 'ẳ', 'ẵ', 'ặ', 'â', 'ấ', 'ầ', 'ẩ', 'ẫ', 'ậ']

/-- The `e` replacement group of the product slug chain. -/
def vietE : List Char :=
  ['é', 'è', 'ẻ', 'ẽ', 'ẹ', 'ê', 'ế', 'ề', 'ể', 'ễ', 'ệ']

/-- The `i` replacement group of the product slug chain. -/
def vietI : List Char :=
  ['í', 'ì', 'ỉ', 'ĩ', 'ị']

/-- The `o` replacement group of the product slug chain. -/
def vietO : List Char :=
  ['ó', 'ò', 'ỏ', 'õ', 'ọ', 'ô', 'ố', 'ồ', 'ổ', 'ỗ', 'ộ', 'ơ', 'ớ', 'ờ', 'ở', 'ỡ', 'ợ']

/-- The `u` replacement group of the product slug chain. -/
def vietU : List Char :=
  ['ú', 'ù', 'ủ', 'ũ', 'ụ', 'ư', 'ứ', 'ừ', 'ử', 'ữ', 'ự']

/-- The `y` replacement group of the product slug chain. -/
def vietY : List Char :=
  ['ý', 'ỳ', 'ỷ', 'ỹ', 'ỵ']

/-- All Vietnamese letters kept by the character class of the product
slug chain (the input is already lower-cased when the class applies). -/
def vietLetters : List Char :=
  vietA ++ vietE ++ vietI ++ vietO ++ vietU ++ vietY ++ ['đ']

/-- `.replace(/\s+/g, '-')`: collapse every whitespace run to a single
dash.  The flag records whether the previous character was whitespace. -/
def collapseWsToDash : Bool → List Char → List Char
  | _, [] => []
  | prevWs, c :: rest =>
    if c.isWhitespace then
      if prevWs then collapseWsToDash true rest
      else '-' :: collapseWsToDash true rest
    else c :: collapseWsToDash false rest

/-- The per-character diacritic replacement chain of the product slug
computation. -/
def replaceVietChar (c : Char) : Char :=
  if vietA.contains c then 'a'
  else if vietE.contains c then 'e'
  else if vietI.contains c then 'i'
  else if vietO.contains c then 'o'
  else if vietU.contains c then 'u'
  else if vietY.contains c then 'y'
  else if c = 'đ' then 'd'
  else c

/-- The product slug computation of `src/unnamed/part_003` lines 981-991:
lower-case the name, drop characters outside word characters, whitespace
and the Vietnamese letter class, collapse whitespace runs to dashes, then
replace diacritics. -/
def makeSlug (name : String) : String :=
  let lowered := (jsToLower name).data
  let cleaned := lowered.filter
    (fun c => isWordChar c || c.isWhitespace || vietLetters.contains c)
  ⟨(collapseWsToDash false cleaned).map replaceVietChar⟩

/-- The service slug computation of `src/unnamed/part_003` line 1403:
lower-case, drop characters outside `\w` and `\s`, collapse whitespace
runs to dashes. -/
def makeServiceSlug (name : String) : String :=
  let lowered := (jsToLower name).data
  ⟨collapseWsToDash false (lowered.filter (fun c => isWordChar c || c.isWhitespace))⟩

/-- A stored product record, shaped as the create handler of
`src/unnamed/part_003` builds it.  `content` and `summary` are stored
unchanged from the request body and may be `undefined`; `child_nav_id`
is `none` for `null` (or a `NaN` parse); `updatedAt` is the camel-cased
key that only the update handler adds (distinct from the snake-cased
`updated_at` written at creation). -/
structure Product where
  id : Int
  name : String
  images : List String
  content : Option String
  slug : String
  summary : Option String
  child_nav_id : Option Int
  features : String
  created_at : String
  updated_at : String
  phone_number : String
  type : String
  isFeatured : Bool
  updatedAt : Option String := none
deriving Repr, DecidableEq

/-- The uniform response envelope. -/
structure ApiResponse (α : Type) where
  statusCode : Nat
  message : String
  data : α
deriving Repr, DecidableEq

/-- An error envelope without a data payload. -/
structure ErrorResponse where
  statusCode : Nat
  message : String
deriving Repr, DecidableEq

/-- Request body of `POST /api/products` (urlencoded or multipart, so
every present field is a string). -/
structure ProductCreateBody where
  name : Option String
  content : Option String
  child_nav_id : Option String
  summary : Option String
  features : Option String
  phone_number : Option String
  type : Option String
  isFeatured : Option String
deriving Repr, DecidableEq

/-- The `POST /api/products` handler of `src/unnamed/part_003` lines
955-1042.  `files` holds the generated filenames of uploaded images,
`now` the serialized current time.  A missing `name` makes
`name.toLowerCase()` throw, which the catch turns into the 500 envelope;
otherwise the new record is appended and returned with a 201. -/
def postProducts (prods : List Product) (body : ProductCreateBody)
    (files : List String) (now : String) :
    Except ErrorResponse (ApiResponse Product × List Product) :=
  match body.name with
  | none => Except.error ⟨500, "Error creating product"⟩
  | some nm =>
    let newId : Int :=
      if prods.length > 0 then mathMax (prods.map Product.id) + 1 else 1
    let slug := makeSlug nm
    let imageFiles := files.map (fun f => "/images/uploads/" ++ f)
    let newProduct : Product :=
      { id := newId
        name := nm
        images := if imageFiles.length > 0 then imageFiles else []
        content := body.content
        slug := slug
        summary := body.summary
        child_nav_id :=
          match body.child_nav_id with
          | some s => if s ≠ "" then parseIntJS s else none
          | none => none
        features := jsOrStr body.features "[]"
        created_at := now
        updated_at := now
        phone_number := jsOrStr body.phone_number ""
        type := jsOrStr body.type "san-pham"
        isFeatured := (body.isFeatured == some "true") || false
        updatedAt := none }
    Except.ok (⟨201, "Product created successfully", newProduct⟩, prods ++ [newProduct])

/-- A multipart form field that may be absent, a single string, or an
array of strings (how Express presents repeated `images[]` fields). -/
inductive FormVal where
  | absent
  | single (s : String)
  | multi (l : List String)
deriving Repr, DecidableEq

/-- The handling of `req.body['images[]']` in the product update handler
of `src/unnamed/part_003` lines 1107-1117: an absent or empty-string
field yields no images, a single non-blank string is wrapped, an array is
filtered to its non-blank entries. -/
def existingImagesOf (f : FormVal) : List String :=
  match f with
  | FormVal.absent => []
  | FormVal.single s => if s ≠ "" then (if s.trim ≠ "" then [s] else []) else []
  | FormVal.multi l => l.filter (fun img => img ≠ "" && img.trim ≠ "")

/-- Request body of the product update handler `POST /api/products/:id`
of `src/unnamed/part_003`. -/
structure ProductUpdateBody where
  name : Option String
  content : Option String
  child_nav_id : Option String
  summary : Option String
  features : Option String
  phone_number : Option String
  imagesField : FormVal
deriving Repr, DecidableEq

/-- The merge step of the product update handler of
`src/unnamed/part_003` lines 1125-1140: spread the current record, let
present non-empty body fields win, always refresh `updatedAt`, and
replace `images` only when the request supplied existing or newly
uploaded image paths. -/
def updateProductMerge (cur : Product) (b : ProductUpdateBody)
    (files : List String) (now : String) : Product :=
  let newFileUrls := files.map (fun f => "/images/uploads/" ++ f)
  let existingImages := existingImagesOf b.imagesField
  let allImages := existingImages ++ newFileUrls
  let base : Product :=
    { cur with
      name := jsOrStr b.name cur.name
      content := jsOrOpt b.content cur.content
      child_nav_id :=
        match b.child_nav_id with
        | some s => if s ≠ "" then parseIntJS s else cur.child_nav_id
        | none => cur.child_nav_id
      summary := jsOrOpt b.summary cur.summary
      phone_number := jsOrStr b.phone_number cur.phone_number
      features := jsOrStr b.features cur.features
      updatedAt := some now }
  if allImages.length > 0 then { base with images := allImages } else base

/-- Outcome of an update route: response envelope plus the stored
collection. -/
structure UpdateOutcome where
  statusCode : Nat
  message : String
  products : List Product
deriving Repr, DecidableEq

/-- The `POST /api/products/:id` route of `src/unnamed/part_003` lines
1065-1166: 404 when no record has the id, otherwise store the merged
record and answer 200 (500 when the database write fails). -/
def postProductsId (prods : List Product) (pid : Int)
    (b : ProductUpdateBody) (files : List String) (now : String)
    (writeOk : Bool) : UpdateOutcome :=
  match prods.findIdx? (fun p => p.id == pid) with
  | none => ⟨404, "Product not found", prods⟩
  | some i =>
    match prods[i]? with
    | none => ⟨500, "Server error", prods⟩
    | some cur =>
      let updated := updateProductMerge cur b files now
      let prods2 := prods.set i updated
      if writeOk then ⟨200, "Product updated successfully", prods2⟩
      else ⟨500, "Error writing to database", prods2⟩

/-- The slug computation of the `PATCH /api/products/:id` handler of
`src/server.js` line 259: the request slug if present and non-empty, else
a slug freshly derived from the name when a name was sent, else the
existing slug.  The external `slugify` package is abstracted as
`slugifyLower`. -/
def serverSlugFor (requestSlug name : Option String)
    (slugifyLower : String → String) (existingSlug : String) : String :=
  let nameBranch :=
    match name with
    | some n => if n ≠ "" then slugifyLower n else existingSlug
    | none => existingSlug
  match requestSlug with
  | some s => if s ≠ "" then s else nameBranch
  | none => nameBranch

/-- A JavaScript value that is either a string or an array of strings
(the two shapes the `images` field of a stored server.js product can
take). -/
inductive JsStrOrArr where
  | str (s : String)
  | arr (l : List String)
deriving Repr, DecidableEq

/-- A stored product record as the server.js handlers shape it (create
handler lines 171-186): `price`, `discountPrice` and `categoryId` are
`none` for `null` or a `NaN` parse; `images` may be a string, an array,
or absent. -/
structure ServerProduct where
  id : Int
  name : String
  slug : String
  summary : String
  description : String
  price : Option Int
  discountPrice : Option Int
  images : Option JsStrOrArr
  categoryId : Option Int
  isFeatured : Bool
  type : String
  content : String
  features : String
  phone_number : String
  updatedAt : Option String := none
deriving Repr, DecidableEq

/-- Request body of the `PATCH /api/products/:id` handler of
`src/server.js` (urlencoded or multipart, so every present field is a
string; `slug` is the destructured `requestSlug`). -/
structure ServerUpdateBody where
  name : Option String
  slug : Option String
  summary : Option String
  description : Option String
  price : Option String
  discountPrice : Option String
  categoryId : Option String
  isFeatured : Option String
  type : Option String
  content : Option String
  features : Option String
  phone_number : Option String
  images : Option String
  replaceImages : Option String
deriving Repr, DecidableEq

/-- The images block of the server.js update handler (lines 261-288):
start from `existingProduct.images || []`; when files were uploaded,
replace them (`replaceImages === 'true'`) or append them to the
array-wrapped existing value; otherwise, when the body carries an
`images` string, `JSON.parse` it (an array is kept, any other parse
result is wrapped, a parse failure falls back to the raw string).
`JSON.parse` is external, abstracted as `jsonParse` with `none` for a
throw; the handler only ever stores strings or string arrays, which
`JsStrOrArr` covers. -/
def serverMergedImages (existing : Option JsStrOrArr)
    (uploadedImages : List String) (bodyImages replaceImages : Option String)
    (jsonParse : String → Option JsStrOrArr) : JsStrOrArr :=
  let images0 : JsStrOrArr :=
    match existing with
    | none => JsStrOrArr.arr []
    | some (JsStrOrArr.str s) =>
      if s = "" then JsStrOrArr.arr [] else JsStrOrArr.str s
    | some v => v
  if uploadedImages.length > 0 then
    let wrapped : List String :=
      match images0 with
      | JsStrOrArr.str s => [s]
      | JsStrOrArr.arr l => l
    if replaceImages == some "true" then JsStrOrArr.arr uploadedImages
    else JsStrOrArr.arr (wrapped ++ uploadedImages)
  else
    match bodyImages with
    | some s =>
      if s ≠ "" then
        match jsonParse s with
        | some (JsStrOrArr.arr l) => JsStrOrArr.arr l
        | some (JsStrOrArr.str x) => JsStrOrArr.arr [x]
        | none => JsStrOrArr.arr [s]
      else images0
    | none => images0

/-- The `updatedProduct` object of the server.js update handler (lines
290-307): `||`-defaulting merges for the string fields, truthiness-guarded
`parseInt` for the numeric fields, the slug recomputation of line 259,
the tri-state `isFeatured === 'true' || (isFeatured !== 'false' &&
existingProduct.isFeatured)` of line 301, the images block, the
`features || existingProduct.features || '[]'` chain, and an
unconditionally refreshed `updatedAt`.  The external `slugify` package is
abstracted as `slugifyLower`. -/
def serverUpdateMerge (existing : ServerProduct) (b : ServerUpdateBody)
    (uploadedImages : List String) (slugifyLower : String → String)
    (jsonParse : String → Option JsStrOrArr) (now : String) :
    ServerProduct :=
  { existing with
    name := jsOrStr b.name existing.name
    slug := serverSlugFor b.slug b.name slugifyLower existing.slug
    summary := jsOrStr b.summary existing.summary
    description := jsOrStr b.description existing.description
    price :=
      match b.price with
      | some s => if s ≠ "" then parseIntJS s else existing.price
      | none => existing.price
    discountPrice :=
      match b.discountPrice with
      | some s => if s ≠ "" then parseIntJS s else existing.discountPrice
      | none => existing.discountPrice
    images :=
      some (serverMergedImages existing.images uploadedImages b.images
        b.replaceImages jsonParse)
    categoryId :=
      match b.categoryId with
      | some s => if s ≠ "" then parseIntJS s else existing.categoryId
      | none => existing.categoryId
    isFeatured :=
      (b.isFeatured == some "true") ||
        ((b.isFeatured != some "false") && existing.isFeatured)
    type := jsOrStr b.type existing.type
    content := jsOrStr b.content existing.content
    features :=
      jsOrStr b.features
        (if existing.features = "" then "[]" else existing.features)
    phone_number := jsOrStr b.phone_number existing.phone_number
    updatedAt := some now }

/-- Outcome of a delete route: response envelope, the stored collection
after the request, and whether a database write happened. -/
structure DeleteOutcome where
  statusCode : Nat
  message : String
  products : List Product
  wrote : Bool
deriving Repr, DecidableEq

/-- The `DELETE /api/products/:id` handler of `src/unnamed/part_003`
lines 1168-1243: 404 and no write when no record matches, otherwise
splice the record out and persist. -/
def deleteProductHandler (prods : List Product) (pid : Int)
    (writeOk : Bool) : DeleteOutcome :=
  match prods.findIdx? (fun p => p.id == pid) with
  | none => ⟨404, "Product not found", prods, false⟩
  | some i =>
    let remaining := prods.eraseIdx i
    if writeOk then ⟨200, "Product deleted successfully", remaining, true⟩
    else ⟨500, "Error writing to database", remaining, true⟩

/-- The `DELETE /api/products/:id` handler of `src/server.js` lines
345-379.  Its `findIndex` compares `parseInt(p.id) === id`, the identity
on the integer ids modelled here; the branch structure and messages match
the part_003 handler. -/
def serverDeleteProduct (prods : List Product) (pid : Int)
    (writeOk : Bool) : DeleteOutcome :=
  match prods.findIdx? (fun p => p.id == pid) with
  | none => ⟨404, "Product not found", prods, false⟩
  | some i =>
    let remaining := prods.eraseIdx i
    if writeOk then ⟨200, "Product deleted successfully", remaining, true⟩
    else ⟨500, "Error writing to database", remaining, true⟩

/-- A stored service record, shaped as the `POST /api/services` handler
of `src/unnamed/part_003` lines 1398-1418 builds it.  `child_nav_id` and
`categoryId` are `none` for a `NaN` parse; `price` and `discountPrice`
are `none` for a `NaN` parse of a present, non-empty price string. -/
structure Service where
  id : Int
  name : String
  title : String
  slug : String
  summary : String
  content : String
  description : String
  child_nav_id : Option Int
  categoryId : Option Int
  isFeatured : Bool
  views : Int
  type : String
  price : Option Rat
  discountPrice : Option Rat
  images : List String
  image : String
  createdAt : String
  updatedAt : String
deriving Repr, DecidableEq

/-- Request body of `POST /api/services`. -/
structure ServiceCreateBody where
  name : Option String
  summary : Option String
  content : Option String
  child_nav_id : Option String
  isFeatured : Option String
  type : Option String
  price : Option String
  discountPrice : Option String
  images : FormVal
deriving Repr, DecidableEq

/-- `Number(service.id) || 0` of `src/unnamed/part_003` line 1372, on the
integer ids modelled here (`Number` is the identity, and `|| 0` only
replaces the falsy value 0 with itself). -/
def jsNumOr0 (i : Int) : Int :=
  if i = 0 then 0 else i

/-- The `POST /api/services` handler of `src/unnamed/part_003` lines
1355-1445.  `files` holds uploaded filenames, `now` the serialized
current time.  Returns the 201 envelope and the stored collection. -/
def postServices (svcs : List Service) (body : ServiceCreateBody)
    (files : List String) (now : String) :
    ApiResponse Service × List Service :=
  let newId : Int :=
    if svcs.length > 0 then mathMax (svcs.map (fun s => jsNumOr0 s.id)) + 1
    else 1
  let imageUrls : List String :=
    if files.length > 0 then files.map (fun f => "/images/uploads/" ++ f)
    else
      match body.images with
      | FormVal.single s =>
        if s ≠ "" then [s] else ["/images/uploads/default-image.jpg"]
      | FormVal.multi l => l
      | FormVal.absent => ["/images/uploads/default-image.jpg"]
  let newService : Service :=
    { id := newId
      name := jsOrStr body.name ""
      title := jsOrStr body.name ""
      slug :=
        match body.name with
        | some n => if n ≠ "" then makeServiceSlug n else ""
        | none => ""
      summary := jsOrStr body.summary ""
      content := jsOrStr body.content ""
      description := jsOrStr body.content ""
      child_nav_id :=
        match body.child_nav_id with
        | some s => if s ≠ "" then parseIntJS s else some 0
        | none => some 0
      categoryId :=
        match body.child_nav_id with
        | some s => if s ≠ "" then parseIntJS s else some 0
        | none => some 0
      isFeatured := (body.isFeatured == some "true") || true
      views := 0
      type := jsOrStr body.type "dich-vu"
      price :=
        match body.price with
        | some s => if s ≠ "" then parseFloatJS s else some 0
        | none => some 0
      discountPrice :=
        match body.discountPrice with
        | some s => if s ≠ "" then parseFloatJS s else some 0
        | none => some 0
      images := imageUrls
      image :=
        if imageUrls.length > 0 then imageUrls.headD ""
        else "/images/uploads/default-image.jpg"
      createdAt := now
      updatedAt := now }
  (⟨201, "Service created successfully", newService⟩, svcs ++ [newService])

/-- The team member shape of the hard-coded default of
`src/unnamed/part_003` lines 4059-4069. -/
structure TeamMember where
  id : Int
  name : String
  position : String
  avatar : String
  image : String
  description : String
  createdAt : String
  updatedAt : String
deriving Repr, DecidableEq

/-- A navigation child category (the shape of the hard-coded category
objects of the parent-navs endpoint, and of stored children). -/
structure NavChild where
  id : Int
  title : String
  slug : String
  parentId : Int
deriving Repr, DecidableEq

/-- A repaired navigation item: its children list is always present. -/
structure NavItem where
  id : Int
  title : String
  slug : String
  position : Int
  children : List NavChild
deriving Repr, DecidableEq

/-- A navigation item as parsed from disk: the children array may be
missing or invalid (`none`). -/
structure RawNavItem where
  id : Int
  title : String
  slug : String
  position : Int
  children : Option (List NavChild)
deriving Repr, DecidableEq

/-- A loosely-typed record of a collection whose contents no verified
code path inspects. -/
structure GenericRecord where
  id : Int
deriving Repr, DecidableEq

/-- The repaired content store document: every collection key present
and an array, exactly the keys `getDatabase` ensures. -/
structure Database where
  products : List Product
  services : List Service
  experiences : List GenericRecord
  team : List TeamMember
  news : List GenericRecord
  images : List GenericRecord
  videos : List GenericRecord
  contacts : List GenericRecord
  categories : List GenericRecord
  users : List GenericRecord
  navigation : List NavItem
deriving Repr, DecidableEq

/-- A parsed JSON document before repair: each collection key may be
absent or not an array (`none` covers both, which `Array.isArray`
treats identically). -/
structure RawDoc where
  products : Option (List Product)
  services : Option (List Service)
  experiences : Option (List GenericRecord)
  team : Option (List TeamMember)
  news : Option (List GenericRecord)
  images : Option (List GenericRecord)
  videos : Option (List GenericRecord)
  contacts : Option (List GenericRecord)
  categories : Option (List GenericRecord)
  users : Option (List GenericRecord)
  navigation : Option (List RawNavItem)
deriving Repr, DecidableEq

/-- The state of the database file when `getDatabase` runs: missing,
present but unparsable JSON, or parsed to a JSON object. -/
inductive FileState where
  | missing
  | malformed
  | parsed (doc : RawDoc)

/-- The empty parsed document (`db = {}` after a missing file or a parse
error). -/
def emptyRawDoc : RawDoc :=
  ⟨none, none, none, none, none, none, none, none, none, none, none⟩

/-- The default navigation seed of `src/unnamed/part_003` lines
4022-4030. -/
def defaultNavSeed : List NavItem :=
  [⟨1, "Trang chủ", "trang-chu", 1, []⟩]

/-- The per-item children repair of `src/unnamed/part_003` lines
4035-4039. -/
def fixNavChildren (item : RawNavItem) : NavItem :=
  ⟨item.id, item.title, item.slug, item.position, item.children.getD []⟩

/-- The collection repair of `getDatabase` (`src/unnamed/part_003` lines
4007-4039): every essential collection becomes an array (empty when
missing or invalid), and the navigation gets the default seed when
missing, invalid, or empty. -/
def repairDoc (r : RawDoc) : Database :=
  { products := r.products.getD []
    services := r.services.getD []
    experiences := r.experiences.getD []
    team := r.team.getD []
    news := r.news.getD []
    images := r.images.getD []
    videos := r.videos.getD []
    contacts := r.contacts.getD []
    categories := r.categories.getD []
    users := r.users.getD []
    navigation :=
      match r.navigation with
      | some navs =>
        if navs.length = 0 then defaultNavSeed else navs.map fixNavChildren
      | none => defaultNavSeed }

/-- `getDatabase` of `src/unnamed/part_003` lines 3985-4085, as a pure
function of the file state.  A missing file and a parse error both reach
the repair step with `db = {}`; a parsed object is repaired key by key.
The function also writes the repaired document back to disk (a side
effect outside this model) and never throws.  The outer catch branch,
which substitutes a hard-coded default with a seeded team member, is
reachable only when the parsed JSON value is not an object (for example a
file containing the literal `null`), a state outside the three modelled
here. -/
def getDatabase (fs : FileState) : Database :=
  match fs with
  | FileState.missing => repairDoc emptyRawDoc
  | FileState.malformed => repairDoc emptyRawDoc
  | FileState.parsed r => repairDoc r

/-- The `GET /api/parent-navs/slug/:slug` handler of
`src/unnamed/part_003` lines 566-655.  The three well-known slugs answer
hard-coded default categories before the stored navigation is consulted;
other slugs answer the matching item's children, or a one-element default
category list.  (The `!db.navigation` guard of the source cannot fire in
the typed model because `getDatabase` always yields an array.) -/
def parentNavsSlugHandler (db : Database) (slug : String) :
    ApiResponse (List NavChild) :=
  if slug == "dich-vu" || slug == "san-pham" || slug == "trai-nghiem" then
    ⟨200, "Success",
      [⟨1, "Tất cả", "tat-ca-" ++ slug, 1⟩,
       ⟨2, "Nổi bật", "noi-bat-" ++ slug, 1⟩]⟩
  else
    match db.navigation.find? (fun nav => nav.slug == slug) with
    | some parentNav => ⟨200, "Success", parentNav.children⟩
    | none => ⟨200, "Success", [⟨1, "Danh mục", "danh-muc", 1⟩]⟩

/-- The alternatives of the multer `fileFilter` regex
`\.(jpg|JPG|jpeg|JPEG|png|PNG|gif|GIF|webp|WEBP)$` of
`src/unnamed/part_003` line 155, as anchored suffixes. -/
def allowedExtAlternatives : List String :=
  [".jpg", ".JPG", ".jpeg", ".JPEG", ".png", ".PNG",
   ".gif", ".GIF", ".webp", ".WEBP"]

/-- Outcome of the multer file filter. -/
inductive FilterOutcome where
  | accepted
  | rejected (message : String)
deriving Repr, DecidableEq

/-- The multer `fileFilter` of `src/unnamed/part_003` lines 153-160:
accept when the original filename matches the image-extension regex,
otherwise reject with the validation error. -/
def multerFileFilter (originalname : String) : FilterOutcome :=
  if allowedExtAlternatives.any (fun pat => strEndsWith pat originalname) then
    FilterOutcome.accepted
  else FilterOutcome.rejected "Only image files are allowed!"

/-- The fixed upload directory `UPLOADS_DIR` of `src/unnamed/part_003`
line 129. -/
def uploadsDir : String :=
  pjoin "/tmp" "uploads"

/-- The stored-filename generator of the multer disk storage of
`src/unnamed/part_003` lines 140-146: `Date.now()` and the random draw
are abstracted as the naturals `timestamp` and `rand`. -/
def multerStoredFilename (timestamp rand : Nat) (originalname : String) :
    String :=
  let uniquePrefix := toString timestamp ++ "-" ++ toString rand
  uniquePrefix ++ extname originalname

/-- A concrete stored product used to instantiate theorems with
hypotheses on concrete inputs. -/
def prodA : Product :=
  { id := 1
    name := "A"
    images := []
    content := none
    slug := "a"
    summary := none
    child_nav_id := none
    features := "[]"
    created_at := "2024-01-01T00:00:00.000Z"
    updated_at := "2024-01-01T00:00:00.000Z"
    phone_number := ""
    type := "san-pham"
    isFeatured := false
    updatedAt := some "2024-02-01T00:00:00.000Z" }

/-- A concrete product create body with only a name. -/
def bodyNameA : ProductCreateBody :=
  ⟨some "A", none, none, none, none, none, none, none⟩

/-- A concrete product create body with name `"Test"` and no slug (the
update endpoints never read a slug from the body at all). -/
def testProductBody : ProductCreateBody :=
  ⟨some "Test", none, none, none, none, none, none, none⟩

/-- A concrete empty service create body. -/
def emptyServiceBody : ServiceCreateBody :=
  ⟨none, none, none, none, none, none, none, none, FormVal.absent⟩

/-- An empty repaired database. -/
def dbEmpty : Database :=
  ⟨[], [], [], [], [], [], [], [], [], [], []⟩

/-- A database whose navigation stores a `san-pham` item with a child
that differs from the hard-coded defaults. -/
def dbWithNav : Database :=
  ⟨[], [], [], [], [], [], [], [], [], [],
   [⟨2, "Sản phẩm", "san-pham", 2, [⟨9, "Khác", "khac", 2⟩]⟩]⟩

/-- An update body with every field absent. -/
def emptyUpdateBody : ProductUpdateBody :=
  ⟨none, none, none, none, none, none, FormVal.absent⟩

/-- A property stating that an optional request field was omitted or sent
as the empty string (both falsy to the merge). -/
def omittedOrEmpty (v : Option String) : Prop :=
  v = none ∨ v = some ""

/-- A concrete update body that sends only a new name. -/
def bodyNewName : ProductUpdateBody :=
  ⟨some "New name", none, none, none, none, none, FormVal.absent⟩

/-- A concrete stored server.js product used to instantiate theorems on
concrete inputs. -/
def srvProdA : ServerProduct :=
  { id := 1
    name := "A"
    slug := "a"
    summary := "s"
    description := "d"
    price := none
    discountPrice := none
    images := some (JsStrOrArr.arr ["/images/uploads/x.jpg"])
    categoryId := none
    isFeatured := true
    type := "san-pham"
    content := "c"
    features := "[]"
    phone_number := ""
    updatedAt := some "2024-02-01T00:00:00.000Z" }

/-- A concrete server.js update body sending a new name and the
non-'true'/'false' value "yes" for isFeatured. -/
def srvBodyYes : ServerUpdateBody :=
  ⟨some "New", none, none, none, none, none, none, some "yes", none,
   none, none, none, none, none⟩

/-- If every element of the first list satisfies the test, `takeWhile`
walks through it. -/
theorem takeWhile_append_of_all {α : Type} (p : α → Bool) (l₁ l₂ : List α)
    (h : ∀ c ∈ l₁, p c = true) :
    (l₁ ++ l₂).takeWhile p = l₁ ++ l₂.takeWhile p := by
  induction l₁ with
  | nil => simp
  | cons c cs ih =>
    have hc : p c = true := h c (by simp)
    simp only [List.cons_append, List.takeWhile_cons, hc, if_true]
    rw [ih (fun x hx => h x (by simp [hx]))]

/-- The basename of a slash-free name is the name itself. -/
theorem basenameData_of_no_slash (n : List Char) (h : ∀ c ∈ n, c ≠ '/') :
    basenameData n = n := by
  unfold basenameData
  rw [List.takeWhile_eq_self_iff.mpr, List.reverse_reverse]
  intro c hc
  simp only [decide_eq_true_eq]
  exact h c (List.mem_reverse.mp hc)

/-- Appending a directory and a slash in front of a slash-free name does
not change its basename. -/
theorem basenameData_append (a n : List Char) (h : ∀ c ∈ n, c ≠ '/') :
    basenameData (a ++ '/' :: n) = n := by
  unfold basenameData
  rw [List.reverse_append, List.reverse_cons]
  rw [List.append_assoc]
  rw [takeWhile_append_of_all _ n.reverse _
    (fun c hc => by simp [h c (List.mem_reverse.mp hc)])]
  simp

/-- `path.extname` looks only at the basename, so joining a directory in
front of a slash-free name leaves it unchanged. -/
theorem extnameData_pjoin (dir nm : String) (h : ∀ c ∈ nm.data, c ≠ '/') :
    extnameData (pjoin dir nm).data = extnameData nm.data := by
  have hslash : ("/" : String).data = ['/'] := rfl
  have hdata : (pjoin dir nm).data = dir.data ++ '/' :: nm.data := by
    unfold pjoin
    rw [String.data_append, String.data_append, hslash, List.append_assoc]
    rfl
  unfold extnameData
  rw [hdata, basenameData_append dir.data nm.data h,
    basenameData_of_no_slash nm.data h]

/-- `getContentType` depends only on the extension, hence only on the
basename. -/
theorem getContentType_pjoin (dir nm : String) (h : ∀ c ∈ nm.data, c ≠ '/') :
    getContentType (pjoin dir nm) = getContentType nm := by
  have hext : extname (pjoin dir nm) = extname nm := by
    unfold extname
    rw [extnameData_pjoin dir nm h]
  unfold getContentType
  rw [hext]

/-- Lower-casing both strings preserves a suffix match. -/
theorem strEndsWith_lower_of (p s : String) (h : strEndsWith p s = true) :
    strEndsWith (jsToLower p) (jsToLower s) = true := by
  simp only [strEndsWith, decide_eq_true_eq] at h ⊢
  exact List.IsSuffix.map Char.toLower h

/-- `Number(id) || 0` is the identity on integers. -/
theorem jsNumOr0_eq (i : Int) : jsNumOr0 i = i := by
  unfold jsNumOr0
  split <;> omega

/-- The guarded `Math.max(...ids) + 1` computation equals one more than
the maximum of the list, or 1 for the empty list. -/
theorem newId_eq_max_succ (l : List Int) :
    (if l.length > 0 then mathMax l + 1 else 1) =
      ((l.max?.map (· + 1)).getD 1) := by
  cases l with
  | nil => rfl
  | cons x xs =>
    rw [if_pos (by simp)]
    simp [mathMax, List.max?]

/-- Claim C1: for the create handlers of `POST /api/products` and
`POST /api/services`, the id of the returned (and stored) record is one
greater than the maximum id previously present in the collection, and 1
when the collection was empty. -/
theorem createAssignsMaxPlusOneId
    (prods : List Product) (svcs : List Service)
    (pbody : ProductCreateBody) (sbody : ServiceCreateBody)
    (pfiles sfiles : List String) (now : String) (nm : String)
    (hname : pbody.name = some nm) :
    (postProducts prods pbody pfiles now).toOption.map
        (fun out => out.1.data.id) =
      some (((prods.map Product.id).max?.map (· + 1)).getD 1) ∧
    (postServices svcs sbody sfiles now).1.data.id =
      ((svcs.map Service.id).max?.map (· + 1)).getD 1 := by
  constructor
  · simp only [postProducts, hname, Except.toOption, Option.map]
    rw [show prods.length = (prods.map Product.id).length from
      (List.length_map prods Product.id).symm]
    rw [newId_eq_max_succ]
    cases (prods.map Product.id).max? <;> rfl
  · simp only [postServices]
    have hmap : svcs.map (fun s => jsNumOr0 s.id) = svcs.map Service.id := by
      simp [jsNumOr0_eq]
    rw [hmap]
    rw [show svcs.length = (svcs.map Service.id).length from
      (List.length_map svcs Service.id).symm]
    rw [newId_eq_max_succ]

/-- Witness for C1: creating in an empty product collection and in an
empty service collection assigns id 1 in both. -/
theorem createAssignsMaxPlusOneId_witness :
    (postProducts [] bodyNameA [] "t").toOption.map
        (fun out => out.1.data.id) =
      some ((((List.nil : List Product).map Product.id).max?.map
        (· + 1)).getD 1) ∧
    (postServices [] emptyServiceBody [] "t").1.data.id =
      ((([] : List Service).map Service.id).max?.map (· + 1)).getD 1 :=
  createAssignsMaxPlusOneId [] [] bodyNameA emptyServiceBody [] [] "t" "A" rfl

/-- Claim C5: deleting a product id that is not in the collection answers
the 404 NotFound envelope, leaves the collection unchanged, and performs
no database write, in both the part_003 and the server.js delete
handlers. -/
theorem deleteMissingIdIs404
    (prods : List Product) (pid : Int) (w1 w2 : Bool)
    (h : ∀ p ∈ prods, p.id ≠ pid) :
    deleteProductHandler prods pid w1 =
      ⟨404, "Product not found", prods, false⟩ ∧
    serverDeleteProduct prods pid w2 =
      ⟨404, "Product not found", prods, false⟩ := by
  have hf : prods.findIdx? (fun p => p.id == pid) = none := by
    rw [List.findIdx?_eq_none_iff]
    intro p hp
    simp [h p hp]
  constructor
  · unfold deleteProductHandler
    rw [hf]
  · unfold serverDeleteProduct
    rw [hf]

/-- Witness for C5: deleting id 2 from the one-element collection whose
only record has id 1. -/
theorem deleteMissingIdIs404_witness :
    deleteProductHandler [prodA] 2 true =
      ⟨404, "Product not found", [prodA], false⟩ ∧
    serverDeleteProduct [prodA] 2 false =
      ⟨404, "Product not found", [prodA], false⟩ :=
  deleteMissingIdIs404 [prodA] 2 true false (by decide)

/-- Claim C7: a product POSTed with name `"Test"` and no slug field gets
slug `"test"` in the record returned by the create handler, whatever the
prior collection, uploaded files, and time. -/
theorem postProductTestSlug
    (prods : List Product) (files : List String) (now : String) :
    (postProducts prods testProductBody files now).toOption.map
        (fun out => out.1.data.slug) = some "test" := by
  simp only [postProducts, testProductBody, Except.toOption, Option.map]
  decide

/-- Claim C9: every service record built by `POST /api/services` has
`isFeatured = true` — the expression
`req.body.isFeatured === 'true' || true` is always true — for every
request body, and the stored collection gains exactly this record. -/
theorem serviceAlwaysFeatured
    (svcs : List Service) (body : ServiceCreateBody)
    (files : List String) (now : String) :
    (postServices svcs body files now).1.data.isFeatured = true ∧
    (postServices svcs body files now).2 =
      svcs ++ [(postServices svcs body files now).1.data] := by
  constructor
  · simp [postServices]
  · rfl

/-- Claim C10: for the slugs `san-pham`, `dich-vu` and `trai-nghiem`,
`GET /api/parent-navs/slug/:slug` answers the two hard-coded default
categories, regardless of the stored navigation. -/
theorem parentNavsSpecialSlugsHardcoded
    (db db2 : Database) (slug : String)
    (h : slug = "san-pham" ∨ slug = "dich-vu" ∨ slug = "trai-nghiem") :
    parentNavsSlugHandler db slug =
      ⟨200, "Success",
        [⟨1, "Tất cả", "tat-ca-" ++ slug, 1⟩,
         ⟨2, "Nổi bật", "noi-bat-" ++ slug, 1⟩]⟩ ∧
    parentNavsSlugHandler db slug = parentNavsSlugHandler db2 slug := by
  rcases h with rfl | rfl | rfl <;> exact ⟨rfl, rfl⟩

/-- Witness for C10: the `san-pham` request answers the two hard-coded
categories on an empty store and on a store with a conflicting
`san-pham` navigation item alike. -/
theorem parentNavsSpecialSlugsHardcoded_witness :
    parentNavsSlugHandler dbEmpty "san-pham" =
      ⟨200, "Success",
        [⟨1, "Tất cả", "tat-ca-" ++ "san-pham", 1⟩,
         ⟨2, "Nổi bật", "noi-bat-" ++ "san-pham", 1⟩]⟩ ∧
    parentNavsSlugHandler dbEmpty "san-pham" =
      parentNavsSlugHandler dbWithNav "san-pham" :=
  parentNavsSpecialSlugsHardcoded dbEmpty dbWithNav "san-pham" (Or.inl rfl)

/-- Counterexample to C2 as stated: on a missing database file, the
`team` collection is repaired to the empty array — not to a non-empty
default seed list (the seeded team member exists only in the critical
error fallback, which a missing file does not reach). -/
theorem getDatabaseMissingTeamEmpty :
    (getDatabase FileState.missing).team = [] := rfl

/-- Claim C2 (amended): for a missing file or unparsable JSON, `load`
returns a document in which every required collection key is present and
is an empty array, except `navigation`, which receives a non-empty
default seed; a collection key missing from a parsed document is likewise
repaired to an empty array (`navigation` to the seed).  `load` never
throws (it is a total function here). -/
theorem getDatabaseRepairs (fs : FileState)
    (h : fs = FileState.missing ∨ fs = FileState.malformed) :
    (getDatabase fs).products = [] ∧
    (getDatabase fs).services = [] ∧
    (getDatabase fs).news = [] ∧
    (getDatabase fs).team = [] ∧
    (getDatabase fs).experiences = [] ∧
    (getDatabase fs).images = [] ∧
    (getDatabase fs).contacts = [] ∧
    (getDatabase fs).users = [] ∧
    (getDatabase fs).navigation = defaultNavSeed ∧
    defaultNavSeed ≠ [] ∧
    (∀ r : RawDoc, r.products = none →
      (getDatabase (FileState.parsed r)).products = []) ∧
    (∀ r : RawDoc, r.team = none →
      (getDatabase (FileState.parsed r)).team = []) ∧
    (∀ r : RawDoc, r.navigation = none →
      (getDatabase (FileState.parsed r)).navigation = defaultNavSeed) ∧
    (∀ r : RawDoc, r.navigation = some [] →
      (getDatabase (FileState.parsed r)).navigation = defaultNavSeed) := by
  refine ⟨?_, ?_, ?_, ?_, ?_, ?_, ?_, ?_, ?_, ?_, ?_, ?_, ?_, ?_⟩
  all_goals
    first
    | (rcases h with rfl | rfl <;> rfl)
    | (intro r hr; simp [getDatabase, repairDoc, hr])
    | simp [defaultNavSeed]

/-- Witness for C2 (amended) at the missing-file state. -/
theorem getDatabaseRepairs_witness :
    (getDatabase FileState.missing).products = [] ∧
    (getDatabase FileState.missing).services = [] ∧
    (getDatabase FileState.missing).news = [] ∧
    (getDatabase FileState.missing).team = [] ∧
    (getDatabase FileState.missing).experiences = [] ∧
    (getDatabase FileState.missing).images = [] ∧
    (getDatabase FileState.missing).contacts = [] ∧
    (getDatabase FileState.missing).users = [] ∧
    (getDatabase FileState.missing).navigation = defaultNavSeed ∧
    defaultNavSeed ≠ [] ∧
    (∀ r : RawDoc, r.products = none →
      (getDatabase (FileState.parsed r)).products = []) ∧
    (∀ r : RawDoc, r.team = none →
      (getDatabase (FileState.parsed r)).team = []) ∧
    (∀ r : RawDoc, r.navigation = none →
      (getDatabase (FileState.parsed r)).navigation = defaultNavSeed) ∧
    (∀ r : RawDoc, r.navigation = some [] →
      (getDatabase (FileState.parsed r)).navigation = defaultNavSeed) :=
  getDatabaseRepairs FileState.missing (Or.inl rfl)

/-- Counterexample to C4 as stated: updating `prodA` with a request body
that omits every field does not leave every stored field at its prior
value — the `updatedAt` timestamp is refreshed to the request time. -/
theorem updateOmittedFieldChanges :
    (updateProductMerge prodA emptyUpdateBody []
      "2025-06-01T00:00:00.000Z").updatedAt ≠ prodA.updatedAt := by
  decide

/-- Claim C4 (amended): in the part_003 product update merge, every
handled field (name, content, summary, features, phone_number,
child_nav_id) that is omitted or empty in the request body retains its
prior value and, when present and non-empty, overwrites it; `images` is
retained when the request supplies no image values and no files; fields
the handler does not touch (id, slug, created_at) are retained; but the
`updatedAt` timestamp is always refreshed to the request time.  In the
server.js merge the same retain/overwrite discipline holds for name,
summary, description, content, phone_number, type, price, discountPrice
and categoryId (features falls back to "[]" when both the request and
the stored value are empty), with three further exceptions: `updatedAt`
is always refreshed; an omitted slug is recomputed from the name
whenever a non-empty name is sent (retained only when the name is also
absent or empty); and `isFeatured` is overwritten only by the exact
strings "true" or "false" — any other present value (for example "yes")
keeps the prior value. -/
theorem updateMergeFieldRules (cur : Product) (b : ProductUpdateBody)
    (files : List String) (now : String) (ex : ServerProduct)
    (b2 : ServerUpdateBody) (files2 : List String)
    (slugifyLower : String → String)
    (jsonParse : String → Option JsStrOrArr) :
    (omittedOrEmpty b.name →
      (updateProductMerge cur b files now).name = cur.name) ∧
    (∀ s, b.name = some s → s ≠ "" →
      (updateProductMerge cur b files now).name = s) ∧
    (omittedOrEmpty b.content →
      (updateProductMerge cur b files now).content = cur.content) ∧
    (∀ s, b.content = some s → s ≠ "" →
      (updateProductMerge cur b files now).content = some s) ∧
    (omittedOrEmpty b.summary →
      (updateProductMerge cur b files now).summary = cur.summary) ∧
    (∀ s, b.summary = some s → s ≠ "" →
      (updateProductMerge cur b files now).summary = some s) ∧
    (omittedOrEmpty b.features →
      (updateProductMerge cur b files now).features = cur.features) ∧
    (∀ s, b.features = some s → s ≠ "" →
      (updateProductMerge cur b files now).features = s) ∧
    (omittedOrEmpty b.phone_number →
      (updateProductMerge cur b files now).phone_number =
        cur.phone_number) ∧
    (∀ s, b.phone_number = some s → s ≠ "" →
      (updateProductMerge cur b files now).phone_number = s) ∧
    (omittedOrEmpty b.child_nav_id →
      (updateProductMerge cur b files now).child_nav_id =
        cur.child_nav_id) ∧
    (∀ s, b.child_nav_id = some s → s ≠ "" →
      (updateProductMerge cur b files now).child_nav_id = parseIntJS s) ∧
    (existingImagesOf b.imagesField = [] → files = [] →
      (updateProductMerge cur b files now).images = cur.images) ∧
    (updateProductMerge cur b files now).updatedAt = some now ∧
    (updateProductMerge cur b files now).id = cur.id ∧
    (updateProductMerge cur b files now).slug = cur.slug ∧
    (updateProductMerge cur b files now).created_at = cur.created_at ∧
    (omittedOrEmpty b2.name →
      (serverUpdateMerge ex b2 files2 slugifyLower jsonParse now).name =
        ex.name) ∧
    (∀ v, b2.name = some v → v ≠ "" →
      (serverUpdateMerge ex b2 files2 slugifyLower jsonParse now).name =
        v) ∧
    (omittedOrEmpty b2.summary →
      (serverUpdateMerge ex b2 files2 slugifyLower jsonParse now).summary =
        ex.summary) ∧
    (∀ v, b2.summary = some v → v ≠ "" →
      (serverUpdateMerge ex b2 files2 slugifyLower jsonParse now).summary =
        v) ∧
    (omittedOrEmpty b2.description →
      (serverUpdateMerge ex b2 files2 slugifyLower jsonParse
        now).description = ex.description) ∧
    (∀ v, b2.description = some v → v ≠ "" →
      (serverUpdateMerge ex b2 files2 slugifyLower jsonParse
        now).description = v) ∧
    (omittedOrEmpty b2.content →
      (serverUpdateMerge ex b2 files2 slugifyLower jsonParse now).content =
        ex.content) ∧
    (∀ v, b2.content = some v → v ≠ "" →
      (serverUpdateMerge ex b2 files2 slugifyLower jsonParse now).content =
        v) ∧
    (omittedOrEmpty b2.phone_number →
      (serverUpdateMerge ex b2 files2 slugifyLower jsonParse
        now).phone_number = ex.phone_number) ∧
    (∀ v, b2.phone_number = some v → v ≠ "" →
      (serverUpdateMerge ex b2 files2 slugifyLower jsonParse
        now).phone_number = v) ∧
    (omittedOrEmpty b2.type →
      (serverUpdateMerge ex b2 files2 slugifyLower jsonParse now).type =
        ex.type) ∧
    (∀ v, b2.type = some v → v ≠ "" →
      (serverUpdateMerge ex b2 files2 slugifyLower jsonParse now).type =
        v) ∧
    (omittedOrEmpty b2.features → ex.features ≠ "" →
      (serverUpdateMerge ex b2 files2 slugifyLower jsonParse now).features =
        ex.features) ∧
    (∀ v, b2.features = some v → v ≠ "" →
      (serverUpdateMerge ex b2 files2 slugifyLower jsonParse now).features =
        v) ∧
    (omittedOrEmpty b2.price →
      (serverUpdateMerge ex b2 files2 slugifyLower jsonParse now).price =
        ex.price) ∧
    (∀ v, b2.price = some v → v ≠ "" →
      (serverUpdateMerge ex b2 files2 slugifyLower jsonParse now).price =
        parseIntJS v) ∧
    (omittedOrEmpty b2.discountPrice →
      (serverUpdateMerge ex b2 files2 slugifyLower jsonParse
        now).discountPrice = ex.discountPrice) ∧
    (∀ v, b2.discountPrice = some v → v ≠ "" →
      (serverUpdateMerge ex b2 files2 slugifyLower jsonParse
        now).discountPrice = parseIntJS v) ∧
    (omittedOrEmpty b2.categoryId →
      (serverUpdateMerge ex b2 files2 slugifyLower jsonParse
        now).categoryId = ex.categoryId) ∧
    (∀ v, b2.categoryId = some v → v ≠ "" →
      (serverUpdateMerge ex b2 files2 slugifyLower jsonParse
        now).categoryId = parseIntJS v) ∧
    (∀ v, b2.slug = some v → v ≠ "" →
      (serverUpdateMerge ex b2 files2 slugifyLower jsonParse now).slug =
        v) ∧
    (omittedOrEmpty b2.slug → ∀ nm, b2.name = some nm → nm ≠ "" →
      (serverUpdateMerge ex b2 files2 slugifyLower jsonParse now).slug =
        slugifyLower nm) ∧
    (omittedOrEmpty b2.slug → omittedOrEmpty b2.name →
      (serverUpdateMerge ex b2 files2 slugifyLower jsonParse now).slug =
        ex.slug) ∧
    (b2.isFeatured = some "true" →
      (serverUpdateMerge ex b2 files2 slugifyLower jsonParse
        now).isFeatured = true) ∧
    (b2.isFeatured = some "false" →
      (serverUpdateMerge ex b2 files2 slugifyLower jsonParse
        now).isFeatured = false) ∧
    (∀ v, b2.isFeatured = some v → v ≠ "true" → v ≠ "false" →
      (serverUpdateMerge ex b2 files2 slugifyLower jsonParse
        now).isFeatured = ex.isFeatured) ∧
    (b2.isFeatured = none →
      (serverUpdateMerge ex b2 files2 slugifyLower jsonParse
        now).isFeatured = ex.isFeatured) ∧
    (serverUpdateMerge ex b2 files2 slugifyLower jsonParse now).updatedAt =
      some now ∧
    (files2 = [] → omittedOrEmpty b2.images →
      ∀ l, ex.images = some (JsStrOrArr.arr l) →
      (serverUpdateMerge ex b2 files2 slugifyLower jsonParse now).images =
        some (JsStrOrArr.arr l)) := by
  refine ⟨?_, ?_, ?_, ?_, ?_, ?_, ?_, ?_, ?_, ?_, ?_, ?_, ?_, ?_, ?_, ?_,
    ?_, ?_, ?_, ?_, ?_, ?_, ?_, ?_, ?_, ?_, ?_, ?_, ?_, ?_, ?_, ?_, ?_,
    ?_, ?_, ?_, ?_, ?_, ?_, ?_, ?_, ?_, ?_, ?_, ?_, ?_⟩
  · rintro (hb | hb) <;>
      simp [updateProductMerge, jsOrStr, hb] <;> split <;> simp
  · intro s hb hs
    simp [updateProductMerge, jsOrStr, hb, hs] <;> split <;> simp_all
  · rintro (hb | hb) <;>
      simp [updateProductMerge, jsOrOpt, hb] <;> split <;> simp
  · intro s hb hs
    simp [updateProductMerge, jsOrOpt, hb, hs] <;> split <;> simp_all
  · rintro (hb | hb) <;>
      simp [updateProductMerge, jsOrOpt, hb] <;> split <;> simp
  · intro s hb hs
    simp [updateProductMerge, jsOrOpt, hb, hs] <;> split <;> simp_all
  · rintro (hb | hb) <;>
      simp [updateProductMerge, jsOrStr, hb] <;> split <;> simp
  · intro s hb hs
    simp [updateProductMerge, jsOrStr, hb, hs] <;> split <;> simp_all
  · rintro (hb | hb) <;>
      simp [updateProductMerge, jsOrStr, hb] <;> split <;> simp
  · intro s hb hs
    simp [updateProductMerge, jsOrStr, hb, hs] <;> split <;> simp_all
  · rintro (hb | hb) <;>
      simp [updateProductMerge, hb] <;> split <;> simp
  · intro s hb hs
    simp [updateProductMerge, hb, hs] <;> split <;> simp_all
  · intro hb hf
    simp [updateProductMerge, hb, hf]
  · simp [updateProductMerge] <;> split <;> simp
  · simp [updateProductMerge] <;> split <;> simp
  · simp [updateProductMerge] <;> split <;> simp
  · simp [updateProductMerge] <;> split <;> simp
  · rintro (hb | hb) <;> simp [serverUpdateMerge, jsOrStr, hb]
  · intro v hb hv
    simp [serverUpdateMerge, jsOrStr, hb, hv]
  · rintro (hb | hb) <;> simp [serverUpdateMerge, jsOrStr, hb]
  · intro v hb hv
    simp [serverUpdateMerge, jsOrStr, hb, hv]
  · rintro (hb | hb) <;> simp [serverUpdateMerge, jsOrStr, hb]
  · intro v hb hv
    simp [serverUpdateMerge, jsOrStr, hb, hv]
  · rintro (hb | hb) <;> simp [serverUpdateMerge, jsOrStr, hb]
  · intro v hb hv
    simp [serverUpdateMerge, jsOrStr, hb, hv]
  · rintro (hb | hb) <;> simp [serverUpdateMerge, jsOrStr, hb]
  · intro v hb hv
    simp [serverUpdateMerge, jsOrStr, hb, hv]
  · rintro (hb | hb) <;> simp [serverUpdateMerge, jsOrStr, hb]
  · intro v hb hv
    simp [serverUpdateMerge, jsOrStr, hb, hv]
  · rintro (hb | hb) hne <;>
      simp [serverUpdateMerge, jsOrStr, hb, hne]
  · intro v hb hv
    simp [serverUpdateMerge, jsOrStr, hb, hv]
  · rintro (hb | hb) <;> simp [serverUpdateMerge, hb]
  · intro v hb hv
    simp [serverUpdateMerge, hb, hv]
  · rintro (hb | hb) <;> simp [serverUpdateMerge, hb]
  · intro v hb hv
    simp [serverUpdateMerge, hb, hv]
  · rintro (hb | hb) <;> simp [serverUpdateMerge, hb]
  · intro v hb hv
    simp [serverUpdateMerge, hb, hv]
  · intro v hb hv
    simp [serverUpdateMerge, serverSlugFor, hb, hv]
  · rintro (hb | hb) nm hnm hne <;>
      simp [serverUpdateMerge, serverSlugFor, hb, hnm, hne]
  · rintro (hb | hb) (hn | hn) <;>
      simp [serverUpdateMerge, serverSlugFor, hb, hn]
  · intro hb
    simp [serverUpdateMerge, hb]
  · intro hb
    simp [serverUpdateMerge, hb]
  · intro v hb hv1 hv2
    have e1 : (v == "true") = false := by simp [hv1]
    have e2 : ((some v : Option String) != some "false") = true := by
      simp [hv2]
    simp [serverUpdateMerge, hb, e1, e2]
  · intro hb
    simp [serverUpdateMerge, hb]
  · simp [serverUpdateMerge]
  · intro hf hb l hex
    rcases hb with hb | hb <;>
      simp [serverUpdateMerge, serverMergedImages, hf, hb, hex]

/-- Witness for C4 (amended): updating `prodA` with only a name sent
overwrites the name, retains the omitted `summary`, and refreshes
`updatedAt`; updating the server.js product `srvProdA` with a new name
and `isFeatured = "yes"` overwrites the name, keeps the prior
`isFeatured`, and refreshes `updatedAt`. -/
theorem updateMergeFieldRules_witness :
    (updateProductMerge prodA bodyNewName [] "T").name = "New name" ∧
    (updateProductMerge prodA bodyNewName [] "T").summary =
      prodA.summary ∧
    (updateProductMerge prodA bodyNewName [] "T").updatedAt = some "T" ∧
    (serverUpdateMerge srvProdA srvBodyYes [] (fun v => v) (fun _ => none)
      "T").name = "New" ∧
    (serverUpdateMerge srvProdA srvBodyYes [] (fun v => v) (fun _ => none)
      "T").isFeatured = srvProdA.isFeatured ∧
    (serverUpdateMerge srvProdA srvBodyYes [] (fun v => v) (fun _ => none)
      "T").updatedAt = some "T" := by
  obtain ⟨h1, h2, h3, h4, h5, h6, h7, h8, h9, h10, h11, h12, h13, h14,
    h15, h16, h17, h18, h19, h20, h21, h22, h23, h24, h25, h26, h27, h28,
    h29, h30, h31, h32, h33, h34, h35, h36, h37, h38, h39, h40, h41, h42,
    h43, h44, h45, h46⟩ :=
    updateMergeFieldRules prodA bodyNewName [] "T" srvProdA srvBodyYes []
      (fun v => v) (fun _ => none)
  exact ⟨h2 "New name" rfl (by decide), h5 (Or.inl rfl), h14,
    h19 "New" rfl (by decide), h43 "yes" rfl (by decide) (by decide), h45⟩

/-- Claim C8: a file whose original name does not end in one of the
allow-listed image extensions (case-insensitively) is rejected by the
multer file filter with the validation error; every accepted file is
stored under the generated name `{timestamp}-{random}{ext}` in the fixed
upload directory `/tmp/uploads`. -/
theorem uploadFilterAndStoredName (orig : String) (t r : Nat)
    (h : ∀ e ∈ [".jpg", ".jpeg", ".png", ".gif", ".webp"],
      strEndsWith e (jsToLower orig) = false) :
    multerFileFilter orig =
      FilterOutcome.rejected "Only image files are allowed!" ∧
    multerStoredFilename t r orig =
      toString t ++ "-" ++ toString r ++ extname orig ∧
    uploadsDir = "/tmp/uploads" := by
  refine ⟨?_, rfl, rfl⟩
  unfold multerFileFilter
  rw [if_neg]
  intro hany
  rw [List.any_eq_true] at hany
  obtain ⟨pat, hpat, hend⟩ := hany
  have h2 := strEndsWith_lower_of pat orig hend
  fin_cases hpat <;>
    exact Bool.noConfusion ((h _ (by decide)).symm.trans h2)

/-- Witness for C8: a `.exe` upload is rejected, and the generated name
for timestamp 1700000000000 and random draw 12345 keeps that shape. -/
theorem uploadFilterAndStoredName_witness :
    multerFileFilter "virus.exe" =
      FilterOutcome.rejected "Only image files are allowed!" ∧
    multerStoredFilename 1700000000000 12345 "virus.exe" =
      toString 1700000000000 ++ "-" ++ toString 12345 ++
        extname "virus.exe" ∧
    uploadsDir = "/tmp/uploads" :=
  uploadFilterAndStoredName "virus.exe" 1700000000000 12345 (by decide)

/-- Claim C3: an image-extension request whose file exists in no
candidate directory still gets HTTP 200 with an image content type from
both the image-proxy router and the part_001 catch-all handler — never a
404: the proxy answers a found fallback default (`image/jpeg`) or the
placeholder (`image/png`), the catch-all answers the placeholder. -/
theorem imageRequestNever404
    (fsE : String → Bool) (cwd dirname reqPath : String)
    (himg : catchAllImageExtTest reqPath = true)
    (h1 : ∀ p ∈ getImageSearchPaths cwd (lastSegment reqPath), fsE p = false)
    (h2 : ∀ p ∈ workaroundSearchPaths dirname (basename reqPath),
      fsE p = false) :
    (imageRouterGet fsE cwd reqPath).status = 200 ∧
    ((imageRouterGet fsE cwd reqPath).contentType = "image/jpeg" ∨
     (imageRouterGet fsE cwd reqPath).contentType = "image/png") ∧
    (imageWorkaroundCatchAll fsE dirname reqPath).status = 200 ∧
    (imageWorkaroundCatchAll fsE dirname reqPath).contentType =
      "image/png" := by
  have hfind1 : (getImageSearchPaths cwd (lastSegment reqPath)).find? fsE =
      none :=
    List.find?_eq_none.mpr (fun p hp => by simp [h1 p hp])
  have hfind2 : (workaroundSearchPaths dirname (basename reqPath)).find? fsE =
      none :=
    List.find?_eq_none.mpr (fun p hp => by simp [h2 p hp])
  have hwork : imageWorkaroundCatchAll fsE dirname reqPath =
      ⟨200, "image/png", ImageBody.placeholderBuffer⟩ := by
    simp only [imageWorkaroundCatchAll, hfind2]
  refine ⟨?_, ?_, ?_, ?_⟩
  · simp only [imageRouterGet, hfind1]
    cases (defaultImages.flatMap (getImageSearchPaths cwd)).find? fsE <;> rfl
  · simp only [imageRouterGet, hfind1]
    cases hfb : (defaultImages.flatMap (getImageSearchPaths cwd)).find? fsE
      with
    | none => exact Or.inr rfl
    | some p =>
      refine Or.inl ?_
      have hmem := List.mem_of_find?_eq_some hfb
      rw [List.mem_flatMap] at hmem
      obtain ⟨d, hd, hpd⟩ := hmem
      rw [getImageSearchPaths, List.mem_map] at hpd
      obtain ⟨dir, _, rfl⟩ := hpd
      show getContentType (pjoin dir d) = "image/jpeg"
      fin_cases hd <;> rw [getContentType_pjoin _ _ (by decide)] <;> decide
  · rw [hwork]
  · rw [hwork]

/-- Witness for C3: a request for `/images/none.jpg` on an empty
filesystem. -/
theorem imageRequestNever404_witness :
    (imageRouterGet (fun _ => false) "/app" "/images/none.jpg").status =
      200 ∧
    ((imageRouterGet (fun _ => false) "/app" "/images/none.jpg").contentType
        = "image/jpeg" ∨
     (imageRouterGet (fun _ => false) "/app" "/images/none.jpg").contentType
        = "image/png") ∧
    (imageWorkaroundCatchAll (fun _ => false) "/app"
      "/images/none.jpg").status = 200 ∧
    (imageWorkaroundCatchAll (fun _ => false) "/app"
      "/images/none.jpg").contentType = "image/png" :=
  imageRequestNever404 (fun _ => false) "/app" "/app" "/images/none.jpg"
    (by decide) (by decide) (by decide)

/-- Counterexample to C6 as stated: in the Placeholder state of the
image-proxy resolver, a `.jpg` request is answered with content type
`image/png`, not the extension-derived `image/jpeg`. -/
theorem placeholderContentTypeNotDerived :
    (imageRouterGet (fun _ => false) "/app" "/photo.jpg").contentType =
      "image/png" ∧
    (imageRouterGet (fun _ => false) "/app" "/photo.jpg").contentType ≠
      "image/jpeg" := by
  constructor <;> decide

/-- Claim C6 (amended): when nothing on disk matches, the image-proxy
router and the part_001 catch-all answer the synthesized placeholder with
the fixed content type `image/png` regardless of the requested
extension; only the part_003 image-not-found middleware derives the
content type from the requested path's extension (`image/jpeg` by
default, `image/png`, `image/gif`, `image/webp` by suffix). -/
theorem placeholderContentTypes
    (fsE : String → Bool) (cwd dirname reqPath : String)
    (hnone : ∀ p, fsE p = false) :
    (imageRouterGet fsE cwd reqPath).contentType = "image/png" ∧
    (imageWorkaroundCatchAll fsE dirname reqPath).contentType =
      "image/png" ∧
    part3NotFoundContentType "/images/a.jpg" = "image/jpeg" ∧
    part3NotFoundContentType "/images/a.webp" = "image/webp" ∧
    part3NotFoundContentType "/images/a.png" = "image/png" ∧
    part3NotFoundContentType "/images/a.gif" = "image/gif" := by
  have hfind : ∀ l : List String, l.find? fsE = none :=
    fun l => List.find?_eq_none.mpr (fun p _ => by simp [hnone p])
  refine ⟨?_, ?_, by decide, by decide, by decide, by decide⟩
  · simp only [imageRouterGet, hfind]
  · simp only [imageWorkaroundCatchAll, hfind]

/-- Witness for C6 (amended) on the empty filesystem. -/
theorem placeholderContentTypes_witness :
    (imageRouterGet (fun _ => false) "/app" "/x/photo.webp").contentType =
      "image/png" ∧
    (imageWorkaroundCatchAll (fun _ => false) "/app"
      "/x/photo.webp").contentType = "image/png" ∧
    part3NotFoundContentType "/images/a.jpg" = "image/jpeg" ∧
    part3NotFoundContentType "/images/a.webp" = "image/webp" ∧
    part3NotFoundContentType "/images/a.png" = "image/png" ∧
    part3NotFoundContentType "/images/a.gif" = "image/gif" :=
  placeholderContentTypes (fun _ => false) "/app" "/app" "/x/photo.webp"
    (fun _ => rfl)
